import Mathlib

/-!
Shallow embedding of the reactive filter-and-render pipeline of
`src/pages/01_duckdb.py` (a Solara + DuckDB dashboard page).

The remote CSV dataset is modelled as a list of `CityRecord`s; the DuckDB
SQL query of `load_filtered_data` (WHERE country = c ORDER BY population
DESC LIMIT 20) becomes filter / mergeSort / take; the module-level catalog
query (SELECT DISTINCT country ... ORDER BY country) becomes dedup /
mergeSort; the reactive state (`selected_country`, `data_df`) and
`solara.use_effect` with `dependencies=[selected_country.value]` become an
explicit state machine whose render step re-runs the effect exactly when
the stored dependency differs from the current selection; the component
tree built by `Page` and `CityMapPlotly` becomes a `VisualTree` value.
-/

namespace Solara1126

/-- One row of the cities dataset: the columns selected by the query in
`load_filtered_data` (`name, country, population, latitude, longitude`).
Coordinates play no role in any claim, so they are carried as integers. -/
structure CityRecord where
  name : String
  country : String
  population : Nat
  latitude : Int
  longitude : Int
deriving DecidableEq, Repr

/-- The ordering realizing `ORDER BY population DESC`. -/
def popDesc (a b : CityRecord) : Prop := b.population ≤ a.population

instance : DecidableRel popDesc := fun a b =>
  inferInstanceAs (Decidable (b.population ≤ a.population))

instance : IsTotal CityRecord popDesc :=
  ⟨fun a b => Or.symm (Nat.le_total a.population b.population)⟩

instance : IsTrans CityRecord popDesc :=
  ⟨fun _ _ _ hab hbc => Nat.le_trans hbc hab⟩

/-- The SQL query of `load_filtered_data`:
`SELECT name, country, population, latitude, longitude FROM data
 WHERE country = c ORDER BY population DESC LIMIT 20`. -/
def query_cities (db : List CityRecord) (c : String) : List CityRecord :=
  (((db.filter fun r => r.country == c).insertionSort popDesc).take 20)

/-- The ordering realizing `ORDER BY country`: lexicographic order on the
underlying character lists, which agrees with the string order
(`String.le_iff_toList_le`) but reduces inside the kernel. -/
def strLe (a b : String) : Prop := a.data ≤ b.data

instance : DecidableRel strLe := fun a b =>
  inferInstanceAs (Decidable (a.data ≤ b.data))

instance : IsTrans String strLe :=
  ⟨fun _ _ _ hab hbc => le_trans (α := List Char) hab hbc⟩

instance : IsTotal String strLe :=
  ⟨fun a b => le_total (α := List Char) a.data b.data⟩

/-- `strLe` is the standard string order. -/
theorem strLe_iff (a b : String) : strLe a b ↔ a ≤ b :=
  (String.le_iff_toList_le).symm

/-- The module-level catalog computation:
`SELECT DISTINCT country FROM data ORDER BY country`, turned into a list
(`countrys_df['country'].tolist()`). -/
def ALL_COUNTRYS (db : List CityRecord) : List String :=
  ((db.map fun r => r.country).dedup).insertionSort strLe

/-- `DEFAULT_COUNTRY = "USA" if "USA" in ALL_COUNTRYS else
(ALL_COUNTRYS[0] if ALL_COUNTRYS else "")`. -/
def DEFAULT_COUNTRY (db : List CityRecord) : String :=
  if "USA" ∈ ALL_COUNTRYS db then "USA"
  else
    match ALL_COUNTRYS db with
    | [] => ""
    | c :: _ => c

/-- A query engine: on a country it either returns rows or fails (network
failure, missing extension, malformed SQL are all `Except.error`). -/
def Engine : Type := String → Except String (List CityRecord)

/-- The healthy engine: the shared DuckDB connection successfully running
the query of `load_filtered_data` against the remote dataset `db`. -/
def okEngine (db : List CityRecord) : Engine :=
  fun c => Except.ok (query_cities db c)

/-- The body of `load_filtered_data`, as a function from the previous
value of the reactive cell `data_df` to its value after the call:
if the selection is falsy (empty string) it returns early leaving
`data_df` untouched; otherwise it runs the query inside `try`, storing
the result on success and an empty DataFrame on any exception. -/
def load_filtered_data (engine : Engine) (sel : String)
    (old : List CityRecord) : List CityRecord :=
  if sel = "" then old
  else
    match engine sel with
    | Except.ok r => r
    | Except.error _ => []

/-- The reactive state of the page: the cells `selected_country` and
`data_df`, the dependency value stored by `solara.use_effect` at the last
effect run (`none` before the first render), and a count of query
executions (instrumentation for the at-most-one-query-per-change claim). -/
structure SysState where
  selection : String
  lastDep : Option String
  data : List CityRecord
  queryCount : Nat
deriving DecidableEq, Repr

/-- Running the effect `load_filtered_data`: on the empty-string sentinel
it returns before printing or querying; otherwise exactly one query
execution happens and `data_df` is set from its outcome. -/
def runEffect (engine : Engine) (s : SysState) : SysState :=
  if s.selection = "" then s
  else
    { s with
      data := load_filtered_data engine s.selection s.data
      queryCount := s.queryCount + 1 }

/-- One render of `Page`: `solara.use_effect` with
`dependencies=[selected_country.value]` runs the effect exactly when the
stored dependency differs from the current selection (in particular on the
first render), then stores the current dependency value. -/
def renderStep (db : List CityRecord) (s : SysState) : SysState :=
  if s.lastDep = some s.selection then s
  else { runEffect (okEngine db) s with lastDep := some s.selection }

/-- The state at process start: `selected_country` is initialized to
`DEFAULT_COUNTRY`, `data_df` to an empty DataFrame, no render yet. -/
def initState (db : List CityRecord) : SysState :=
  { selection := DEFAULT_COUNTRY db
    lastDep := none
    data := []
    queryCount := 0 }

/-- An interaction event: a re-render of `Page`, or the user picking a
country in the `solara.Select` widget (which sets `selected_country` and
triggers a re-render). -/
inductive Event where
  | render : Event
  | select (c : String) : Event
deriving DecidableEq, Repr

/-- Apply one event to the state. -/
def stepEvent (db : List CityRecord) (s : SysState) : Event → SysState
  | Event.render => renderStep db s
  | Event.select c => renderStep db { s with selection := c }

/-- Run a whole interaction trace from the startup state. -/
def run (db : List CityRecord) (evs : List Event) : SysState :=
  evs.foldl (stepEvent db) (initState db)

/-- An event the UI can produce: a select event must pick a country
offered by the selector, whose `values` list is the country catalog. -/
def eventAllowed (db : List CityRecord) : Event → Bool
  | Event.render => true
  | Event.select c => decide (c ∈ ALL_COUNTRYS db)

/-- A trace is valid when every event in it is one the UI can produce. -/
def ValidEvents (db : List CityRecord) (evs : List Event) : Prop :=
  ∀ e ∈ evs, eventAllowed db e = true

instance (db : List CityRecord) (evs : List Event) :
    Decidable (ValidEvents db evs) :=
  inferInstanceAs (Decidable (∀ e ∈ evs, eventAllowed db e = true))

/-- A plotly figure, by provenance: the blank `go.Figure` of the empty
branch, the `px.scatter_geo` map, or the `px.bar` population chart. -/
inductive Fig where
  | emptyFig (title : String)
  | scatterGeo (rows : List CityRecord) (title : String) (scope : String)
  | bar (rows : List CityRecord) (title : String)
deriving Repr

/-- The element tree produced by the solara components used in `Page`
and `CityMapPlotly` (styling dictionaries are not modelled). -/
inductive VisualTree where
  | title (t : String)
  | select (label : String) (values : List String) (value : String)
  | markdown (t : String)
  | info (t : String)
  | warning (t : String)
  | figurePlotly (fig : Fig)
  | dataFrame (rows : List CityRecord)
  | div (children : List VisualTree)
  | column (children : List VisualTree)
deriving Repr

/-- The component `CityMapPlotly(df, country)`: on an empty DataFrame, a
Div holding a warning naming the country and a blank placeholder figure;
otherwise a Div holding the `px.scatter_geo` map. -/
def CityMapPlotly (df : List CityRecord) (country : String) : VisualTree :=
  if df = [] then
    VisualTree.div
      [VisualTree.warning
        ("**沒有找到 " ++ country ++ " 的城市數據。** 請嘗試選擇其他國家。"),
       VisualTree.figurePlotly (Fig.emptyFig "請選擇一個國家或數據載入中")]
  else
    VisualTree.div
      [VisualTree.figurePlotly
        (Fig.scatterGeo df (country ++ " 主要城市分佈")
          (if country = "USA" then "usa" else "world"))]

/-- The data-dependent tail of `Page`'s column: the populated branch
(map, table caption, table, bar chart), the country-selected-but-empty
branch (an Info message), or the no-selection branch. -/
def PageBody (sel : String) (data : List CityRecord) : List VisualTree :=
  if sel ≠ "" ∧ data ≠ [] then
    [CityMapPlotly data sel,
     VisualTree.markdown
       ("### 📋 數據表格 (前 " ++ toString data.length ++ " 大城市)"),
     VisualTree.dataFrame data,
     VisualTree.figurePlotly (Fig.bar data (sel ++ " 城市人口"))]
  else if sel ≠ "" then
    [VisualTree.info ("正在載入 " ++ sel ++ " 的數據...")]
  else
    [VisualTree.info "正在載入國家清單..."]

/-- The element tree rendered by one pass of `Page`, as a function of the
catalog and the current reactive state. -/
def Page (catalog : List String) (sel : String)
    (data : List CityRecord) : List VisualTree :=
  [VisualTree.title "城市地理人口分析 (DuckDB + Solara + Plotly)",
   VisualTree.column
     ([VisualTree.select "選擇國家" catalog sel,
       VisualTree.markdown "---"] ++ PageBody sel data)]

mutual

/-- Whether a tree contains any plotly figure element. -/
def hasFigure : VisualTree → Bool
  | VisualTree.figurePlotly _ => true
  | VisualTree.div cs => hasFigureL cs
  | VisualTree.column cs => hasFigureL cs
  | _ => false

/-- Whether any tree in a list contains a plotly figure element. -/
def hasFigureL : List VisualTree → Bool
  | [] => false
  | t :: ts => hasFigure t || hasFigureL ts

end

/-! Concrete datasets used to exercise the definitions. -/

/-- A sample row. -/
def tokyo : CityRecord := ⟨"Tokyo", "Japan", 14000000, 35, 139⟩

/-- A sample dataset whose catalog contains "USA". -/
def sampleDb : List CityRecord :=
  [tokyo,
   ⟨"New York", "USA", 8000000, 40, -74⟩,
   ⟨"Los Angeles", "USA", 4000000, 34, -118⟩,
   ⟨"Toronto", "Canada", 2700000, 43, -79⟩]

/-- A sample dataset whose catalog does not contain "USA". -/
def dbFrance : List CityRecord :=
  [⟨"Paris", "France", 2000000, 48, 2⟩,
   ⟨"Lyon", "France", 500000, 45, 4⟩]

/-- A dataset one of whose rows has the empty string in the country
column, so the empty string is offered by the selector. -/
def emptyCountryDb : List CityRecord :=
  [⟨"Nowhere", "", 5, 0, 0⟩,
   ⟨"Paris", "France", 2000000, 48, 2⟩]

/-! Claims. -/

/-- C1: for every country value drawn from the country catalog, the
filtered query run by `load_filtered_data` produces a result in which
every row's country field equals the selected country. -/
theorem C1_query_rows_match_country (db : List CityRecord) (c : String)
    (hc : c ∈ ALL_COUNTRYS db) :
    ∀ r ∈ query_cities db c, r.country = c := by
  intro r hr
  unfold query_cities at hr
  have h1 : r ∈ (db.filter fun r => r.country == c).insertionSort popDesc :=
    (List.take_sublist 20 _).subset hr
  have h2 : r ∈ db.filter fun r => r.country == c :=
    (List.mem_insertionSort popDesc).mp h1
  exact eq_of_beq (List.mem_filter.mp h2).2

/-- Witness for C1 at the sample dataset and the catalog country "USA". -/
theorem C1_witness :
    "USA" ∈ ALL_COUNTRYS sampleDb ∧
      ∀ r ∈ query_cities sampleDb "USA", r.country = "USA" :=
  ⟨by decide, C1_query_rows_match_country sampleDb "USA" (by decide)⟩

/-- C2: for every selected country, a failure of the query engine is
caught inside `load_filtered_data` and the result is the empty state;
`load_filtered_data` is a total function, so no exception reaches the
caller. -/
theorem C2_failure_yields_empty (engine : Engine) (e : String)
    (sel : String) (old : List CityRecord)
    (hsel : sel ≠ "") (he : engine sel = Except.error e) :
    load_filtered_data engine sel old = [] := by
  unfold load_filtered_data
  simp [hsel, he]

/-- Witness for C2: a network-failure engine at selection "USA". -/
theorem C2_witness :
    load_filtered_data (fun _ => Except.error "HTTP GET failed") "USA" [tokyo]
      = [] :=
  C2_failure_yields_empty (fun _ => Except.error "HTTP GET failed")
    "HTTP GET failed" "USA" [tokyo] (by decide) rfl

/-- C6: for every selected country, the query result has its population
values in non-increasing order. -/
theorem C6_population_descending (db : List CityRecord) (c : String)
    (hne : query_cities db c ≠ []) :
    (query_cities db c).Pairwise fun a b => b.population ≤ a.population := by
  unfold query_cities
  exact (List.sorted_insertionSort popDesc _).sublist (List.take_sublist 20 _)

/-- Witness for C6 at the sample dataset and country "USA". -/
theorem C6_witness :
    query_cities sampleDb "USA" ≠ [] ∧
      (query_cities sampleDb "USA").Pairwise
        fun a b => b.population ≤ a.population :=
  ⟨by decide, C6_population_descending sampleDb "USA" (by decide)⟩

/-- C7: for every selected country, the query result is bounded to at
most 20 rows (`LIMIT 20`). -/
theorem C7_at_most_twenty (db : List CityRecord) (c : String) :
    (query_cities db c).length ≤ 20 := by
  unfold query_cities
  exact List.length_take_le 20 _

/-- Running the effect never changes the selection. -/
theorem runEffect_selection (engine : Engine) (s : SysState) :
    (runEffect engine s).selection = s.selection := by
  unfold runEffect
  by_cases h : s.selection = "" <;> simp [h]

/-- After any render, the stored effect dependency equals the current
selection. -/
theorem renderStep_lastDep (db : List CityRecord) (s : SysState) :
    (renderStep db s).lastDep = some (renderStep db s).selection := by
  unfold renderStep
  by_cases h : s.lastDep = some s.selection
  · simp [h]
  · simp [h, runEffect_selection]

/-- A render whose stored dependency already equals the selection does
nothing. -/
theorem renderStep_of_dep_eq (db : List CityRecord) (s : SysState)
    (h : s.lastDep = some s.selection) : renderStep db s = s := by
  unfold renderStep
  simp [h]

/-- C3: re-rendering `Page` without an intervening change of
`selected_country` does not re-run `load_filtered_data`: the second
render leaves the whole state (cached result and query count included)
identical. -/
theorem C3_rerender_is_idempotent (db : List CityRecord) (s : SysState) :
    renderStep db (renderStep db s) = renderStep db s :=
  renderStep_of_dep_eq db _ (renderStep_lastDep db s)

/-- C4 counterexample: through valid selector interactions on a dataset
whose country column contains the empty string, the app reaches the
sentinel selection with a non-empty filtered dataset: the early return
of `load_filtered_data` issues no query but also does not reset
`data_df` to the empty state. -/
theorem C4_counterexample :
    ValidEvents emptyCountryDb [Event.select "France", Event.select ""] ∧
    (run emptyCountryDb [Event.select "France", Event.select ""]).selection
      = "" ∧
    (run emptyCountryDb [Event.select "France", Event.select ""]).queryCount
      = 1 ∧
    (run emptyCountryDb [Event.select "France", Event.select ""]).data
      ≠ [] := by
  refine ⟨by decide, by decide, by decide, by decide⟩

/-- C4 as amended: when the selection is the "none selected" sentinel
(empty string), no query is issued and the dataset cell is left
unchanged by the early return; it is the explicit empty state exactly
when no query result is already stored, as at startup. -/
theorem C4_sentinel_no_query (engine : Engine) (s : SysState)
    (db : List CityRecord) (h : s.selection = "") :
    runEffect engine s = s ∧ (initState db).data = [] := by
  constructor
  · unfold runEffect
    simp [h]
  · rfl

/-- Witness for the amended C4 at a concrete sentinel state. -/
theorem C4_sentinel_no_query_witness :
    runEffect (okEngine sampleDb) ⟨"", none, [tokyo], 0⟩
        = ⟨"", none, [tokyo], 0⟩ ∧
      (initState sampleDb).data = [] :=
  C4_sentinel_no_query (okEngine sampleDb) ⟨"", none, [tokyo], 0⟩
    sampleDb rfl

/-- C5 counterexample: with the country "Atlantis" selected and an empty
filtered dataset, `Page` renders only an Info message; its output
contains no figure element at all, so no placeholder visualization is
shown. -/
theorem C5_counterexample :
    PageBody "Atlantis" [] = [VisualTree.info "正在載入 Atlantis 的數據..."] ∧
    hasFigureL (Page ["Canada", "Japan", "USA"] "Atlantis" []) = false :=
  ⟨rfl, rfl⟩

/-- C5 as amended: whenever a country is selected and its filtered
result is empty, `Page` renders an info message whose text contains the
selected country name, and omits the visualization entirely (the
warning-plus-placeholder branch of `CityMapPlotly` is not invoked, since
`Page` only calls `CityMapPlotly` on non-empty data). -/
theorem C5_empty_renders_info_only (catalog : List String) (sel : String)
    (data : List CityRecord) (hsel : sel ≠ "") (hdata : data = []) :
    PageBody sel data = [VisualTree.info ("正在載入 " ++ sel ++ " 的數據...")] ∧
    (∃ pre post, "正在載入 " ++ sel ++ " 的數據..." = pre ++ sel ++ post) ∧
    hasFigureL (Page catalog sel data) = false := by
  subst hdata
  refine ⟨?_, ⟨"正在載入 ", " 的數據...", rfl⟩, ?_⟩
  · unfold PageBody
    simp [hsel]
  · unfold Page PageBody
    simp [hsel, hasFigureL, hasFigure]

/-- Witness for the amended C5 at selection "Atlantis". -/
theorem C5_empty_renders_info_only_witness :
    PageBody "Atlantis" []
        = [VisualTree.info ("正在載入 " ++ "Atlantis" ++ " 的數據...")] ∧
      (∃ pre post,
        "正在載入 " ++ "Atlantis" ++ " 的數據..." = pre ++ "Atlantis" ++ post) ∧
      hasFigureL (Page ["USA"] "Atlantis" []) = false :=
  C5_empty_renders_info_only ["USA"] "Atlantis" [] (by decide) rfl

/-- C8: the country catalog `ALL_COUNTRYS` is sorted alphabetically,
holds no duplicates, and holds exactly the country values occurring in
the dataset. -/
theorem C8_catalog_sorted_distinct (db : List CityRecord) :
    (ALL_COUNTRYS db).Pairwise (· ≤ ·) ∧ (ALL_COUNTRYS db).Nodup ∧
      ∀ s, s ∈ ALL_COUNTRYS db ↔ s ∈ db.map fun r => r.country := by
  refine ⟨?_, ?_, ?_⟩
  · exact (List.sorted_insertionSort strLe _).imp fun hab => (strLe_iff _ _).mp hab
  · exact (List.perm_insertionSort strLe _).nodup_iff.mpr (List.nodup_dedup _)
  · intro s
    unfold ALL_COUNTRYS
    rw [List.mem_insertionSort, List.mem_dedup]

/-- C9: the default country is "USA" whenever "USA" is in the catalog,
and otherwise is the first country of the sorted catalog (for every
non-empty catalog). -/
theorem C9_default_country (db : List CityRecord) :
    ("USA" ∈ ALL_COUNTRYS db → DEFAULT_COUNTRY db = "USA") ∧
      ("USA" ∉ ALL_COUNTRYS db → ALL_COUNTRYS db ≠ [] →
        ∃ tl, ALL_COUNTRYS db = DEFAULT_COUNTRY db :: tl) := by
  constructor
  · intro h
    unfold DEFAULT_COUNTRY
    simp [h]
  · intro h hne
    unfold DEFAULT_COUNTRY
    simp only [h, if_false]
    match hcat : ALL_COUNTRYS db with
    | [] => exact absurd hcat hne
    | c :: tl => exact ⟨tl, rfl⟩

/-- Witness for C9: "USA" is preferred in the sample dataset; in the
France-only dataset the default is the catalog head. -/
theorem C9_default_country_witness :
    DEFAULT_COUNTRY sampleDb = "USA" ∧
      ∃ tl, ALL_COUNTRYS dbFrance = DEFAULT_COUNTRY dbFrance :: tl :=
  ⟨(C9_default_country sampleDb).1 (by decide),
   (C9_default_country dbFrance).2 (by decide) (by decide)⟩

/-- One valid event preserves the quiescent empty-catalog state. -/
theorem stepEvent_empty_catalog (db : List CityRecord) (s : SysState)
    (e : Event) (hcat : ALL_COUNTRYS db = [])
    (he : eventAllowed db e = true)
    (h1 : s.selection = "") (h2 : s.queryCount = 0) (h3 : s.data = []) :
    (stepEvent db s e).selection = "" ∧ (stepEvent db s e).queryCount = 0 ∧
      (stepEvent db s e).data = [] := by
  cases e with
  | render =>
    unfold stepEvent renderStep runEffect
    by_cases h : s.lastDep = some s.selection
    · simp [h, h1, h2, h3]
    · rw [h1] at h
      simp [h, h1, h2, h3]
  | select c =>
    exfalso
    have hc : c ∈ ALL_COUNTRYS db := of_decide_eq_true he
    rw [hcat] at hc
    exact List.not_mem_nil c hc

/-- Any valid trace preserves the quiescent empty-catalog state. -/
theorem run_empty_catalog_aux (db : List CityRecord)
    (hcat : ALL_COUNTRYS db = []) :
    ∀ (evs : List Event) (s : SysState),
      (∀ e ∈ evs, eventAllowed db e = true) →
      s.selection = "" → s.queryCount = 0 → s.data = [] →
      (evs.foldl (stepEvent db) s).selection = "" ∧
        (evs.foldl (stepEvent db) s).queryCount = 0 ∧
        (evs.foldl (stepEvent db) s).data = []
  | [], s, _, h1, h2, h3 => ⟨h1, h2, h3⟩
  | e :: evs, s, hval, h1, h2, h3 => by
    have hstep := stepEvent_empty_catalog db s e hcat
      (hval e (List.mem_cons_self e evs)) h1 h2 h3
    exact run_empty_catalog_aux db hcat evs (stepEvent db s e)
      (fun x hx => hval x (List.mem_cons_of_mem e hx))
      hstep.1 hstep.2.1 hstep.2.2

/-- C10: with an empty country catalog, the default country is the
empty-string sentinel, so the sentinel state is reachable at startup,
and along every valid interaction trace no query is ever issued and the
dataset stays empty. -/
theorem C10_empty_catalog_never_queries (db : List CityRecord)
    (evs : List Event) (hcat : ALL_COUNTRYS db = [])
    (hval : ValidEvents db evs) :
    DEFAULT_COUNTRY db = "" ∧ (initState db).selection = "" ∧
      (run db evs).selection = "" ∧ (run db evs).queryCount = 0 ∧
      (run db evs).data = [] := by
  have hdef : DEFAULT_COUNTRY db = "" := by
    unfold DEFAULT_COUNTRY
    rw [hcat]
    simp
  refine ⟨hdef, hdef, ?_⟩
  exact run_empty_catalog_aux db hcat evs (initState db) hval hdef rfl rfl

/-- Witness for C10 at the empty dataset and a two-render trace. -/
theorem C10_empty_catalog_never_queries_witness :
    DEFAULT_COUNTRY ([] : List CityRecord) = "" ∧
      (initState ([] : List CityRecord)).selection = "" ∧
      (run ([] : List CityRecord) [Event.render, Event.render]).selection
        = "" ∧
      (run ([] : List CityRecord) [Event.render, Event.render]).queryCount
        = 0 ∧
      (run ([] : List CityRecord) [Event.render, Event.render]).data = [] :=
  C10_empty_catalog_never_queries [] [Event.render, Event.render]
    (by decide) (by decide)

end Solara1126
